import Mathlib

/-!
Shallow embedding of the appointment-scheduling-bot repository core:
the configuration resolver (`internal/shared/config/config.go`) and the
Google Calendar adapter (`internal/calendar/google/client.go`).

External effects are modelled explicitly:
* the process environment is a function `String → String` (Go's
  `os.Getenv` returns `""` for unset variables, so unset and empty
  coincide, exactly as in the source's `getEnv` helper);
* the filesystem is a function `String → FileResult` recording, per
  path, whether `os.Stat` fails (`absent`), or `os.Stat` succeeds but
  `os.ReadFile` fails with some error message (`unreadable`, as for a
  directory or a permission-denied file), or the read succeeds with the
  file's bytes (`content`);
* each remote Google Calendar endpoint is a function argument returning
  `Except String _`, mirroring the Go SDK calls that return
  `(result, error)`; the adapter's time formatting/parsing
  (`time.Format` / `time.Parse` with the RFC3339 layout) is likewise
  passed as function arguments, since the claims only depend on whether
  a timestamp parses, never on the calendar arithmetic itself.
Machine bytes are `Nat` values below 256.
-/

namespace SchedulingBot

/-- Value of one base64 character under the standard alphabet
(`A-Z a-z 0-9 + /`), `none` for every other character.  This is Go's
`base64.StdEncoding` decode map. -/
def b64Val (c : Char) : Option Nat :=
  if 'A' ≤ c ∧ c ≤ 'Z' then some (c.toNat - 65)
  else if 'a' ≤ c ∧ c ≤ 'z' then some (c.toNat - 97 + 26)
  else if '0' ≤ c ∧ c ≤ '9' then some (c.toNat - 48 + 52)
  else if c = '+' then some 62
  else if c = '/' then some 63
  else none

/-- Decode a newline-free character list in 4-character quanta, exactly as
Go's `base64.StdEncoding.DecodeString` does after its (positionally
transparent) skipping of `\r` and `\n`: padding `=` may occur only in the
final quantum, `x=` / `xx=` style short quanta and any input whose length
is not a multiple of four are corrupt, trailing data after a padded
quantum is corrupt, and (non-strict mode) unused trailing bits in the
last character are ignored. -/
def decodeQuanta : List Char → Option (List Nat)
  | [] => some []
  | c0 :: c1 :: c2 :: c3 :: rest =>
    match b64Val c0, b64Val c1 with
    | some v0, some v1 =>
      if c2 = '=' then
        if c3 = '=' ∧ rest = [] then
          some [(v0 * 262144 + v1 * 4096) / 65536]
        else none
      else
        match b64Val c2 with
        | some v2 =>
          if c3 = '=' then
            if rest = [] then
              some [(v0 * 262144 + v1 * 4096 + v2 * 64) / 65536,
                    ((v0 * 262144 + v1 * 4096 + v2 * 64) / 256) % 256]
            else none
          else
            match b64Val c3 with
            | some v3 =>
              match decodeQuanta rest with
              | some bs =>
                some ((v0 * 262144 + v1 * 4096 + v2 * 64 + v3) / 65536 ::
                      ((v0 * 262144 + v1 * 4096 + v2 * 64 + v3) / 256) % 256 ::
                      (v0 * 262144 + v1 * 4096 + v2 * 64 + v3) % 256 :: bs)
              | none => none
            | none => none
        | none => none
    | _, _ => none
  | _ => none

/-- Go's `base64.StdEncoding.DecodeString`: `\r` and `\n` are ignored
wherever they occur, then the input is decoded in padded 4-character
quanta; `some bytes` models a nil error. -/
def DecodeString (s : String) : Option (List Nat) :=
  decodeQuanta (s.data.filter (fun c => ¬(c = '\r' ∨ c = '\n')))

/-- UTF-8 bytes of a string, as Go's `[]byte(s)` conversion. -/
def stringBytes (s : String) : List Nat :=
  s.toUTF8.toList.map (fun b => b.toNat)

/-- `Config` from `internal/shared/config/config.go`. -/
structure Config where
  Env : String
  HttpPort : String
  Timezone : String
  GCalCalendarID : String
  GoogleCredsJSON : String
  SupabaseURL : String
  SupabaseKey : String
  RedisURL : String
  deriving DecidableEq, Repr

/-- `getEnv` from `config.go`: read a variable, fall back to the default
when it is empty (Go's `os.Getenv` yields `""` for unset). -/
def getEnv (env : String → String) (key defaultValue : String) : String :=
  if env key ≠ "" then env key else defaultValue

/-- `Load` from `config.go`.  `env` is the process environment after the
best-effort `godotenv` overlay loading (which only mutates the
environment and never fails, so it is absorbed into `env`).  Returns the
resolved `Config` together with `some errorMessage` when production
validation fails, mirroring Go's `(Config, error)` pair. -/
def Load (env : String → String) : Config × Option String :=
  let config : Config :=
    { Env := getEnv env "APP_ENV" "development"
      HttpPort := getEnv env "HTTP_PORT" "8080"
      Timezone := getEnv env "TZ" "UTC"
      GCalCalendarID := getEnv env "GCAL_CALENDAR_ID" ""
      GoogleCredsJSON := getEnv env "GOOGLE_CREDS_JSON" ""
      SupabaseURL := getEnv env "SUPABASE_URL" ""
      SupabaseKey := getEnv env "SUPABASE_KEY" ""
      RedisURL := getEnv env "REDIS_URL" "redis://localhost:6379" }
  if config.Env = "production" then
    if config.GCalCalendarID = "" then
      (config, some "GCAL_CALENDAR_ID is required in production")
    else if config.GoogleCredsJSON = "" then
      (config, some "GOOGLE_CREDS_JSON is required in production")
    else (config, none)
  else (config, none)

/-- Outcome of probing one path, keeping Go's `os.Stat` check separate
from the `os.ReadFile` that follows it: `absent` when `os.Stat` fails,
`unreadable msg` when `os.Stat` succeeds but `os.ReadFile` fails with
error message `msg` (a directory, an unreadable file), `content bytes`
when the read succeeds. -/
inductive FileResult where
  | absent : FileResult
  | unreadable (msg : String) : FileResult
  | content (bytes : List Nat) : FileResult
  deriving DecidableEq, Repr

/-- `GetGoogleCreds` from `config.go`.  `fs` is the filesystem (see the
module docstring); `credsJSON` is the raw `GoogleCredsJSON` field.  In
the path branch the source returns `os.ReadFile`'s result as-is, so an
existing-but-unreadable path propagates the read error. -/
def GetGoogleCreds (fs : String → FileResult) (credsJSON : String) :
    Except String (List Nat) :=
  if credsJSON.length > 0 then
    match DecodeString credsJSON with
    | some decoded => Except.ok decoded
    | none =>
      match fs credsJSON with
      | FileResult.content bytes => Except.ok bytes
      | FileResult.unreadable msg => Except.error msg
      | FileResult.absent => Except.ok (stringBytes credsJSON)
  else Except.error "no Google credentials provided"

/-- Abstract instant, standing in for Go's `time.Time`.  The adapter
never inspects a time value itself; it only hands times to the
formatting/parsing functions, so a wrapped integer (Unix nanoseconds)
suffices. -/
structure GoTime where
  unixNano : Int
  deriving DecidableEq, Repr

/-- `calendar.TimeBlock` from `internal/calendar/types.go`. -/
structure TimeBlock where
  Start : GoTime
  End : GoTime
  Source : String
  deriving DecidableEq, Repr

/-- `calendar.Appointment` from `internal/calendar/types.go`. -/
structure Appointment where
  Summary : String
  Description : String
  Start : GoTime
  End : GoTime
  AttendeeName : String
  AttendeeEmail : String
  Location : String
  Timezone : String
  deriving DecidableEq, Repr

/-- `gcal.EventDateTime`, restricted to the two fields the adapter
writes. -/
structure EventDateTime where
  DateTime : String
  TimeZone : String
  deriving DecidableEq, Repr

/-- `gcal.EventAttendee`, restricted to the email the adapter writes
plus the display-name field it leaves at its zero value (Go zero value
is `""`), so that the claims about the name never being transmitted are
expressible. -/
structure EventAttendee where
  Email : String := ""
  DisplayName : String := ""
  deriving DecidableEq, Repr

/-- `gcal.Event`, restricted to the fields the adapter reads or writes,
plus two representative fields (`Status`, `ColorId`) that lie outside
the `Appointment` type, standing in for all the remote-event data the
fetch-then-merge update carries over untouched. -/
structure Event where
  Id : String := ""
  Summary : String := ""
  Description : String := ""
  Start : Option EventDateTime := none
  End : Option EventDateTime := none
  Location : String := ""
  Attendees : List EventAttendee := []
  Status : String := ""
  ColorId : String := ""
  deriving DecidableEq, Repr

/-- `gcal.FreeBusyRequestItem`. -/
structure FreeBusyRequestItem where
  Id : String
  deriving DecidableEq, Repr

/-- `gcal.FreeBusyRequest`. -/
structure FreeBusyRequest where
  TimeMin : String
  TimeMax : String
  Items : List FreeBusyRequestItem
  deriving DecidableEq, Repr

/-- One entry of `gcal.TimePeriod`: a busy interval as two raw timestamp
strings. -/
structure TimePeriod where
  Start : String
  End : String
  deriving DecidableEq, Repr

/-- `gcal.FreeBusyCalendar`, restricted to the busy list the adapter
reads. -/
structure FreeBusyCalendar where
  Busy : List TimePeriod
  deriving DecidableEq, Repr

/-- `gcal.FreeBusyResponse`.  Go's `Calendars` is a
`map[string]FreeBusyCalendar`; the map is modelled by its lookup
function. -/
structure FreeBusyResponse where
  Calendars : String → Option FreeBusyCalendar

/-- `google.Client` from `internal/calendar/google/client.go`.  The
authenticated `*gcal.Service` session handle is not data the adapter
logic inspects; each remote endpoint the service offers is passed to
the operation that uses it as an explicit function argument. -/
structure Client where
  calendarID : String
  deriving DecidableEq, Repr

/-- The free/busy request that `ListBusy` builds: the `[from, to)`
window formatted with RFC3339 (`fmt` models `time.Time.Format
time.RFC3339`) and a single item naming the bound calendar. -/
def listBusyRequest (fmt : GoTime → String) (c : Client) (tFrom tTo : GoTime) :
    FreeBusyRequest :=
  { TimeMin := fmt tFrom
    TimeMax := fmt tTo
    Items := [{ Id := c.calendarID }] }

/-- The `for _, busy := range cal.Busy` loop body of `ListBusy`: parse
start and end with `time.Parse time.RFC3339` (modelled by `parse`);
`continue` on either failure; otherwise append a `TimeBlock` tagged
`"google_calendar"`. -/
def processBusy (parse : String → Option GoTime) : List TimePeriod → List TimeBlock
  | [] => []
  | b :: rest =>
    match parse b.Start with
    | none => processBusy parse rest
    | some s =>
      match parse b.End with
      | none => processBusy parse rest
      | some e =>
        { Start := s, End := e, Source := "google_calendar" } :: processBusy parse rest

/-- `ListBusy` from `client.go`.  `remote` models the single
`service.Freebusy.Query(query).Do()` round-trip. -/
def ListBusy (fmt : GoTime → String) (parse : String → Option GoTime)
    (remote : FreeBusyRequest → Except String FreeBusyResponse)
    (c : Client) (tFrom tTo : GoTime) : Except String (List TimeBlock) :=
  match remote (listBusyRequest fmt c tFrom tTo) with
  | Except.error e => Except.error ("failed to query free/busy: " ++ e)
  | Except.ok result =>
    match result.Calendars c.calendarID with
    | some cal => Except.ok (processBusy parse cal.Busy)
    | none => Except.ok []

/-- The outgoing `gcal.Event` payload that `CreateEvent` builds from an
`Appointment` before inserting it: all fields start at their Go zero
values, the mapped fields are set, and the attendee list is only set
when the attendee email is non-empty. -/
def createEventPayload (fmt : GoTime → String) (appt : Appointment) : Event :=
  let event : Event :=
    { Summary := appt.Summary
      Description := appt.Description
      Start := some { DateTime := fmt appt.Start, TimeZone := appt.Timezone }
      End := some { DateTime := fmt appt.End, TimeZone := appt.Timezone }
      Location := appt.Location }
  if appt.AttendeeEmail ≠ "" then
    { event with Attendees := [{ Email := appt.AttendeeEmail }] }
  else event

/-- `CreateEvent` from `client.go`.  `remoteInsert` models
`service.Events.Insert(calendarID, event).Do()`. -/
def CreateEvent (fmt : GoTime → String)
    (remoteInsert : String → Event → Except String Event)
    (c : Client) (appt : Appointment) : Except String String :=
  match remoteInsert c.calendarID (createEventPayload fmt appt) with
  | Except.ok createdEvent => Except.ok createdEvent.Id
  | Except.error e => Except.error ("failed to create calendar event: " ++ e)

/-- The fetch-then-merge step of `UpdateEvent`: overwrite summary,
description, start, end and location on the fetched event, and the
attendee list only when the attendee email is non-empty; every other
field of the fetched event is left untouched. -/
def updateEventPatch (fmt : GoTime → String) (appt : Appointment)
    (existingEvent : Event) : Event :=
  let e : Event :=
    { existingEvent with
      Summary := appt.Summary
      Description := appt.Description
      Start := some { DateTime := fmt appt.Start, TimeZone := appt.Timezone }
      End := some { DateTime := fmt appt.End, TimeZone := appt.Timezone }
      Location := appt.Location }
  if appt.AttendeeEmail ≠ "" then
    { e with Attendees := [{ Email := appt.AttendeeEmail }] }
  else e

/-- `UpdateEvent` from `client.go`.  `remoteGet` models
`service.Events.Get(calendarID, eventID).Do()` and `remoteUpdate`
models `service.Events.Update(calendarID, eventID, event).Do()`. -/
def UpdateEvent (fmt : GoTime → String)
    (remoteGet : String → String → Except String Event)
    (remoteUpdate : String → String → Event → Except String Event)
    (c : Client) (eventID : String) (appt : Appointment) : Except String Unit :=
  match remoteGet c.calendarID eventID with
  | Except.error e => Except.error ("failed to get existing event: " ++ e)
  | Except.ok existingEvent =>
    match remoteUpdate c.calendarID eventID (updateEventPatch fmt appt existingEvent) with
    | Except.error e => Except.error ("failed to update calendar event: " ++ e)
    | Except.ok _ => Except.ok ()

/-- `DeleteEvent` from `client.go`.  `remoteDelete` models
`service.Events.Delete(calendarID, eventID).Do()`. -/
def DeleteEvent (remoteDelete : String → String → Except String Unit)
    (c : Client) (eventID : String) : Except String Unit :=
  match remoteDelete c.calendarID eventID with
  | Except.error e => Except.error ("failed to delete calendar event: " ++ e)
  | Except.ok _ => Except.ok ()

/-- Example environment: production with the calendar identifier left
unset. -/
def envProdMissing : String → String :=
  fun k => if k = "APP_ENV" then "production" else ""

/-- Example filesystem on which the base64 string `"aGk="` also names an
existing file (with different content), to exercise the resolution
order. -/
def fsAlsoNamed : String → FileResult :=
  fun p => if p = "aGk=" then FileResult.content [9, 9, 9] else FileResult.absent

/-- Example filesystem holding one credential file `{}`. -/
def fsCreds : String → FileResult :=
  fun p =>
    if p = "service-account.json" then FileResult.content [123, 125]
    else FileResult.absent

/-- Example filesystem with no files. -/
def fsNone : String → FileResult := fun _ => FileResult.absent

/-- Example filesystem on which the path `"creds-dir"` exists for
`os.Stat` but `os.ReadFile` fails on it (it is a directory). -/
def fsDir : String → FileResult :=
  fun p =>
    if p = "creds-dir" then FileResult.unreadable "read creds-dir: is a directory"
    else FileResult.absent

/-- Example RFC3339 formatter stand-in. -/
def fmtEx : GoTime → String := fun t => toString t.unixNano

/-- Example RFC3339 parser stand-in: two well-formed timestamps parse,
everything else fails. -/
def parseEx : String → Option GoTime := fun str =>
  if str = "2024-01-01T10:00:00Z" then some { unixNano := 1 }
  else if str = "2024-01-01T11:00:00Z" then some { unixNano := 2 }
  else none

/-- Example adapter bound to the calendar `"primary"`. -/
def clientEx : Client := { calendarID := "primary" }

/-- Example free/busy response for `"primary"`: one busy interval with a
garbage start timestamp, then one well-formed interval. -/
def respEx : FreeBusyResponse :=
  { Calendars := fun id =>
      if id = "primary" then
        some { Busy := [
          { Start := "not-a-timestamp", End := "2024-01-01T11:00:00Z" },
          { Start := "2024-01-01T10:00:00Z", End := "2024-01-01T11:00:00Z" }] }
      else none }

/-- `respEx` extended with an entry for an unrelated calendar
identifier. -/
def respExOther : FreeBusyResponse :=
  { Calendars := fun id =>
      if id = "primary" then respEx.Calendars "primary"
      else if id = "someone-else" then
        some { Busy := [{ Start := "2024-01-01T10:00:00Z",
                          End := "2024-01-01T11:00:00Z" }] }
      else none }

/-- Example free/busy response with no calendar entries at all. -/
def respNone : FreeBusyResponse := { Calendars := fun _ => none }

/-- Example appointment with an attendee. -/
def apptWithAttendee : Appointment :=
  { Summary := "Intro call", Description := "kickoff",
    Start := { unixNano := 10 }, End := { unixNano := 20 },
    AttendeeName := "Alice Zed", AttendeeEmail := "alice@example.com",
    Location := "Room 1", Timezone := "UTC" }

/-- Example appointment without an attendee. -/
def apptNoAttendee : Appointment :=
  { apptWithAttendee with AttendeeName := "", AttendeeEmail := "" }

/-- Example fetched remote event that already carries an attendee and
data outside the `Appointment` type. -/
def eventWithOldAttendee : Event :=
  { Id := "evt-1", Summary := "Old title", Description := "old",
    Start := some { DateTime := "2024-01-01T10:00:00Z", TimeZone := "UTC" },
    End := some { DateTime := "2024-01-01T11:00:00Z", TimeZone := "UTC" },
    Location := "Old room",
    Attendees := [{ Email := "old@example.com" }],
    Status := "confirmed", ColorId := "5" }

/-- Example fetch endpoint on which every event identifier is missing. -/
def remoteGetNotFound : String → String → Except String Event :=
  fun _ _ => Except.error "googleapi: Error 404: Not Found"

lemma length_pos_of_ne_empty (s : String) (h : s ≠ "") : 0 < s.length := by
  cases s with
  | mk data =>
    cases data with
    | nil => exact absurd rfl h
    | cons c cs => simp [String.length]

/-- C1 counterexample: the non-base64 string `"creds-dir"` names a path
that exists for `os.Stat`, yet `GetGoogleCreds` returns the read error,
not the path's byte content as the claim's middle branch asserts — an
error is never `Except.ok` of any bytes. -/
theorem getGoogleCreds_reads_path_error_cex :
    DecodeString "creds-dir" = none ∧
    fsDir "creds-dir" = FileResult.unreadable "read creds-dir: is a directory" ∧
    GetGoogleCreds fsDir "creds-dir" =
      Except.error "read creds-dir: is a directory" :=
  ⟨by decide, rfl, rfl⟩

/-- C1 as amended: for every non-empty credential field string,
`GetGoogleCreds` resolves in fixed order, first success winning: a
string that decodes under standard base64 yields the decoded bytes
(even when it also names an existing file, since the successful decode
is consulted first and the conclusion holds for every filesystem);
otherwise a string naming an existing path yields the result of
reading that path — its exact byte content when the read succeeds, and
the read's error when it fails; otherwise the original string's bytes
unchanged. -/
theorem getGoogleCreds_resolution_order (fs : String → FileResult) (s : String)
    (h : s ≠ "") :
    (∀ d, DecodeString s = some d → GetGoogleCreds fs s = Except.ok d) ∧
    (DecodeString s = none → ∀ bytes, fs s = FileResult.content bytes →
      GetGoogleCreds fs s = Except.ok bytes) ∧
    (DecodeString s = none → ∀ msg, fs s = FileResult.unreadable msg →
      GetGoogleCreds fs s = Except.error msg) ∧
    (DecodeString s = none → fs s = FileResult.absent →
      GetGoogleCreds fs s = Except.ok (stringBytes s)) := by
  have hlen : 0 < s.length := length_pos_of_ne_empty s h
  refine ⟨fun d hd => ?_, fun hnone bytes hc => ?_, fun hnone msg hu => ?_,
    fun hnone hfs => ?_⟩
  · simp [GetGoogleCreds, gt_iff_lt, hlen, hd]
  · simp [GetGoogleCreds, gt_iff_lt, hlen, hnone, hc]
  · simp [GetGoogleCreds, gt_iff_lt, hlen, hnone, hu]
  · simp [GetGoogleCreds, gt_iff_lt, hlen, hnone, hfs]

/-- Witness for C1 (amended): `"aGk="` decodes to `"hi"` and wins over
the file of the same name; a non-base64 path resolves to the file's
bytes when readable and to the read error when not; a non-base64
non-path string resolves to its own bytes. -/
theorem getGoogleCreds_resolution_order_witness :
    GetGoogleCreds fsAlsoNamed "aGk=" = Except.ok [104, 105] ∧
    GetGoogleCreds fsCreds "service-account.json" = Except.ok [123, 125] ∧
    GetGoogleCreds fsDir "creds-dir" =
      Except.error "read creds-dir: is a directory" ∧
    GetGoogleCreds fsNone "./creds.json" = Except.ok (stringBytes "./creds.json") := by
  refine ⟨?_, ?_, ?_, ?_⟩
  · exact (getGoogleCreds_resolution_order fsAlsoNamed "aGk=" (by decide)).1
      [104, 105] (by decide)
  · exact (getGoogleCreds_resolution_order fsCreds "service-account.json"
      (by decide)).2.1 (by decide) [123, 125] (by decide)
  · exact (getGoogleCreds_resolution_order fsDir "creds-dir"
      (by decide)).2.2.1 (by decide) "read creds-dir: is a directory" (by decide)
  · exact (getGoogleCreds_resolution_order fsNone "./creds.json"
      (by decide)).2.2.2 (by decide) (by decide)

/-- C2: `Load` fails if and only if the resolved environment name equals
`"production"` and the resolved calendar identifier or credential field
is empty; every non-production environment never fails. -/
theorem load_fails_iff_production_missing (env : String → String) :
    (Load env).2 ≠ none ↔
      ((Load env).1.Env = "production" ∧
        ((Load env).1.GCalCalendarID = "" ∨ (Load env).1.GoogleCredsJSON = "")) := by
  simp only [Load]
  split
  next h1 =>
    split
    next h2 => simp [h1, h2]
    next h2 =>
      split
      next h3 => simp [h1, h2, h3]
      next h3 => simp [h1, h2, h3]
  next h1 => simp [h1]

/-- C7 counterexample: the non-empty field `"creds-dir"` names an
existing path whose read fails, so `GetGoogleCreds` returns that read's
error — not "some byte result", refuting the claim's totality conjunct
(an error is never `Except.ok` of any bytes). -/
theorem getGoogleCreds_nonempty_error_cex :
    ¬("creds-dir" = "") ∧
    GetGoogleCreds fsDir "creds-dir" =
      Except.error "read creds-dir: is a directory" :=
  ⟨by decide, rfl⟩

lemma fsDir_read_errors : ∀ p msg, fsDir p = FileResult.unreadable msg →
    msg ≠ "no Google credentials provided" := by
  intro p msg hp
  by_cases hpc : p = "creds-dir"
  · simp [fsDir, hpc] at hp
    subst hp
    decide
  · simp [fsDir, hpc] at hp

/-- C7 as amended: provided the filesystem's read errors differ from the
fixed "no Google credentials provided" message (as Go's `os.ReadFile`
errors, which name the path being read, always do), `GetGoogleCreds`
returns that fixed error exactly when the raw field is empty; every
non-empty field yields either some byte result or, when a non-base64
field names an existing but unreadable path, that read's own error. -/
theorem getGoogleCreds_error_iff_empty (fs : String → FileResult) (s : String)
    (hfs : ∀ p msg, fs p = FileResult.unreadable msg →
      msg ≠ "no Google credentials provided") :
    (GetGoogleCreds fs s = Except.error "no Google credentials provided" ↔ s = "") ∧
    (s ≠ "" →
      (∃ bs, GetGoogleCreds fs s = Except.ok bs) ∨
      (∃ msg, DecodeString s = none ∧ fs s = FileResult.unreadable msg ∧
        GetGoogleCreds fs s = Except.error msg)) := by
  by_cases h : s = ""
  · subst h
    exact ⟨⟨fun _ => rfl, fun _ => rfl⟩, fun hne => absurd rfl hne⟩
  · have hlen : 0 < s.length := length_pos_of_ne_empty s h
    have key : (∃ bs, GetGoogleCreds fs s = Except.ok bs) ∨
        (∃ msg, DecodeString s = none ∧ fs s = FileResult.unreadable msg ∧
          GetGoogleCreds fs s = Except.error msg) := by
      cases hD : DecodeString s with
      | some d =>
        exact Or.inl ⟨d, by simp [GetGoogleCreds, gt_iff_lt, hlen, hD]⟩
      | none =>
        cases hF : fs s with
        | absent =>
          exact Or.inl ⟨stringBytes s,
            by simp [GetGoogleCreds, gt_iff_lt, hlen, hD, hF]⟩
        | unreadable msg =>
          exact Or.inr ⟨msg, rfl, rfl,
            by simp [GetGoogleCreds, gt_iff_lt, hlen, hD, hF]⟩
        | content bytes =>
          exact Or.inl ⟨bytes, by simp [GetGoogleCreds, gt_iff_lt, hlen, hD, hF]⟩
    refine ⟨⟨fun hc => ?_, fun hc => absurd hc h⟩, fun _ => key⟩
    cases key with
    | inl hok =>
      obtain ⟨bs, hbs⟩ := hok
      rw [hbs] at hc
      exact Except.noConfusion hc
    | inr hun =>
      obtain ⟨msg, hD, hF, herr⟩ := hun
      rw [herr] at hc
      have hmsg : msg = "no Google credentials provided" := by injection hc
      exact absurd hmsg (hfs s msg hF)

/-- Witness for C7 (amended): the empty field fails with the fixed
error; a non-empty raw string yields a byte result. -/
theorem getGoogleCreds_error_iff_empty_witness :
    GetGoogleCreds fsDir "" = Except.error "no Google credentials provided" ∧
    ((∃ bs, GetGoogleCreds fsDir "raw-secret" = Except.ok bs) ∨
      (∃ msg, DecodeString "raw-secret" = none ∧
        fsDir "raw-secret" = FileResult.unreadable msg ∧
        GetGoogleCreds fsDir "raw-secret" = Except.error msg)) :=
  ⟨(getGoogleCreds_error_iff_empty fsDir "" fsDir_read_errors).1.2 rfl,
    (getGoogleCreds_error_iff_empty fsDir "raw-secret" fsDir_read_errors).2
      (by decide)⟩

/-- C10: even when production validation fails, `Load` returns the fully
resolved configuration (every field populated from its environment
variable or default) alongside the error, not a zero value. -/
theorem load_returns_resolved_config_on_error (env : String → String)
    (_h : (Load env).2 ≠ none) :
    (Load env).1 =
      { Env := getEnv env "APP_ENV" "development"
        HttpPort := getEnv env "HTTP_PORT" "8080"
        Timezone := getEnv env "TZ" "UTC"
        GCalCalendarID := getEnv env "GCAL_CALENDAR_ID" ""
        GoogleCredsJSON := getEnv env "GOOGLE_CREDS_JSON" ""
        SupabaseURL := getEnv env "SUPABASE_URL" ""
        SupabaseKey := getEnv env "SUPABASE_KEY" ""
        RedisURL := getEnv env "REDIS_URL" "redis://localhost:6379" } := by
  simp only [Load]
  split
  · split
    · rfl
    · split <;> rfl
  · rfl

/-- C4: `ListBusy` silently drops each busy interval whose start or end
timestamp fails to parse and keeps scanning: over a window whose
response holds one unparsable and one well-formed interval it returns
exactly one `TimeBlock` (the well-formed one) tagged
`"google_calendar"`, and a per-item parse failure never fails the whole
call (any successful response yields `Except.ok`). -/
theorem listBusy_drops_unparsable (fmt : GoTime → String) (parse : String → Option GoTime)
    (c : Client) (tFrom tTo : GoTime) (bad good : TimePeriod) (s e : GoTime)
    (resp : FreeBusyResponse)
    (hbad : parse bad.Start = none ∨ parse bad.End = none)
    (hgoodS : parse good.Start = some s) (hgoodE : parse good.End = some e)
    (hcal : resp.Calendars c.calendarID = some { Busy := [bad, good] }) :
    ListBusy fmt parse (fun _ => Except.ok resp) c tFrom tTo =
      Except.ok [{ Start := s, End := e, Source := "google_calendar" }] ∧
    ∀ resp2 : FreeBusyResponse, ∃ blocks,
      ListBusy fmt parse (fun _ => Except.ok resp2) c tFrom tTo = Except.ok blocks := by
  constructor
  · cases hbad with
    | inl hb => simp [ListBusy, hcal, processBusy, hb, hgoodS, hgoodE]
    | inr hb =>
      cases hbs : parse bad.Start with
      | none => simp [ListBusy, hcal, processBusy, hbs, hgoodS, hgoodE]
      | some sb => simp [ListBusy, hcal, processBusy, hbs, hb, hgoodS, hgoodE]
  · intro resp2
    cases hc2 : resp2.Calendars c.calendarID with
    | none => exact ⟨[], by simp [ListBusy, hc2]⟩
    | some cal => exact ⟨processBusy parse cal.Busy, by simp [ListBusy, hc2]⟩

/-- Witness for C4: a response with one garbage interval and one
well-formed interval yields exactly the well-formed block. -/
theorem listBusy_drops_unparsable_witness :
    ListBusy fmtEx parseEx (fun _ => Except.ok respEx) clientEx
      { unixNano := 0 } { unixNano := 9 } =
      Except.ok [{ Start := { unixNano := 1 }, End := { unixNano := 2 },
                   Source := "google_calendar" }] :=
  (listBusy_drops_unparsable fmtEx parseEx clientEx { unixNano := 0 } { unixNano := 9 }
    { Start := "not-a-timestamp", End := "2024-01-01T11:00:00Z" }
    { Start := "2024-01-01T10:00:00Z", End := "2024-01-01T11:00:00Z" }
    { unixNano := 1 } { unixNano := 2 } respEx
    (Or.inl (by decide)) (by decide) (by decide) (by decide)).1

/-- C5: `CreateEvent` attaches an attendee to the outgoing payload iff
the attendee email is non-empty; when attached the payload holds
exactly one attendee entry carrying only the email (the display name
stays at its zero value, so the attendee name is never transmitted);
and the remote insert receives exactly that payload, its assigned event
identifier being returned. -/
theorem createEvent_attendee_payload (fmt : GoTime → String) (appt : Appointment)
    (c : Client) :
    (appt.AttendeeEmail = "" → (createEventPayload fmt appt).Attendees = []) ∧
    (appt.AttendeeEmail ≠ "" →
      (createEventPayload fmt appt).Attendees =
        [{ Email := appt.AttendeeEmail, DisplayName := "" }]) ∧
    (∀ created : Event,
      CreateEvent fmt
        (fun _ ev => if ev = createEventPayload fmt appt then Except.ok created
          else Except.error "unexpected payload")
        c appt = Except.ok created.Id) := by
  refine ⟨fun h => ?_, fun h => ?_, fun created => ?_⟩
  · simp [createEventPayload, h]
  · simp [createEventPayload, h]
  · simp [CreateEvent]

/-- Witness for C5: the empty-email appointment carries no attendee; the
non-empty one carries exactly the email and no display name. -/
theorem createEvent_attendee_payload_witness :
    (createEventPayload fmtEx apptNoAttendee).Attendees = [] ∧
    (createEventPayload fmtEx apptWithAttendee).Attendees =
      [{ Email := "alice@example.com", DisplayName := "" }] := by
  constructor
  · exact (createEvent_attendee_payload fmtEx apptNoAttendee clientEx).1 rfl
  · have h := (createEvent_attendee_payload fmtEx apptWithAttendee clientEx).2.1
      (by decide)
    rw [h]
    rfl

/-- C6: `ListBusy` consults the remote service at exactly one request —
the aggregate free/busy query whose window is the two formatted
endpoints and whose item list names exactly the bound calendar — and
its result depends only on the response entry keyed by the bound
calendar identifier, entries for any other identifier being ignored. -/
theorem listBusy_single_query_bound_calendar (fmt : GoTime → String)
    (parse : String → Option GoTime) (c : Client) (tFrom tTo : GoTime) :
    ((listBusyRequest fmt c tFrom tTo).Items = [{ Id := c.calendarID }] ∧
      (listBusyRequest fmt c tFrom tTo).TimeMin = fmt tFrom ∧
      (listBusyRequest fmt c tFrom tTo).TimeMax = fmt tTo) ∧
    (∀ remote remote2 : FreeBusyRequest → Except String FreeBusyResponse,
      remote (listBusyRequest fmt c tFrom tTo) = remote2 (listBusyRequest fmt c tFrom tTo) →
      ListBusy fmt parse remote c tFrom tTo = ListBusy fmt parse remote2 c tFrom tTo) ∧
    (∀ resp resp2 : FreeBusyResponse,
      resp.Calendars c.calendarID = resp2.Calendars c.calendarID →
      ListBusy fmt parse (fun _ => Except.ok resp) c tFrom tTo =
        ListBusy fmt parse (fun _ => Except.ok resp2) c tFrom tTo) := by
  refine ⟨⟨rfl, rfl, rfl⟩, fun remote remote2 hr => ?_, fun resp resp2 hr => ?_⟩
  · unfold ListBusy
    rw [hr]
  · simp [ListBusy, hr]

/-- Witness for C6: a response carrying an extra entry for another
calendar identifier produces the same blocks as one without it. -/
theorem listBusy_single_query_bound_calendar_witness :
    ListBusy fmtEx parseEx (fun _ => Except.ok respEx) clientEx
      { unixNano := 0 } { unixNano := 9 } =
    ListBusy fmtEx parseEx (fun _ => Except.ok respExOther) clientEx
      { unixNano := 0 } { unixNano := 9 } :=
  (listBusy_single_query_bound_calendar fmtEx parseEx clientEx
    { unixNano := 0 } { unixNano := 9 }).2.2 respEx respExOther rfl

/-- C8: when the initial fetch fails (the event identifier does not
exist remotely), `UpdateEvent` returns the wrapped fetch error, and its
result is independent of the update endpoint — the remote update call
is never issued.  The adapter's own fields (`calendarID` and the
session handle it stands for) are immutable values in this model, as in
the source, which never assigns to them. -/
theorem updateEvent_missing_event_error (fmt : GoTime → String)
    (remoteGet : String → String → Except String Event)
    (c : Client) (eventID : String) (appt : Appointment) (msg : String)
    (h : remoteGet c.calendarID eventID = Except.error msg) :
    (∀ remoteUpdate : String → String → Event → Except String Event,
      UpdateEvent fmt remoteGet remoteUpdate c eventID appt =
        Except.error ("failed to get existing event: " ++ msg)) ∧
    (∀ remoteUpdate remoteUpdate2 : String → String → Event → Except String Event,
      UpdateEvent fmt remoteGet remoteUpdate c eventID appt =
        UpdateEvent fmt remoteGet remoteUpdate2 c eventID appt) := by
  constructor
  · intro remoteUpdate
    simp [UpdateEvent, h]
  · intro r1 r2
    simp [UpdateEvent, h]

/-- Witness for C8: a 404 on the fetch surfaces as the wrapped fetch
error even with an always-succeeding update endpoint. -/
theorem updateEvent_missing_event_error_witness :
    UpdateEvent fmtEx remoteGetNotFound (fun _ _ ev => Except.ok ev)
      clientEx "missing-id" apptWithAttendee =
      Except.error ("failed to get existing event: " ++
        "googleapi: Error 404: Not Found") :=
  (updateEvent_missing_event_error fmtEx remoteGetNotFound clientEx "missing-id"
    apptWithAttendee "googleapi: Error 404: Not Found" rfl).1
    (fun _ _ ev => Except.ok ev)

/-- C9: when the free/busy response has no entry at all for the bound
calendar identifier, `ListBusy` returns the empty block list and no
error. -/
theorem listBusy_missing_calendar_empty (fmt : GoTime → String)
    (parse : String → Option GoTime) (c : Client) (tFrom tTo : GoTime)
    (resp : FreeBusyResponse) (h : resp.Calendars c.calendarID = none) :
    ListBusy fmt parse (fun _ => Except.ok resp) c tFrom tTo = Except.ok [] := by
  simp [ListBusy, h]

/-- Witness for C9: the empty response map yields `ok []`. -/
theorem listBusy_missing_calendar_empty_witness :
    ListBusy fmtEx parseEx (fun _ => Except.ok respNone) clientEx
      { unixNano := 0 } { unixNano := 9 } = Except.ok [] :=
  listBusy_missing_calendar_empty fmtEx parseEx clientEx
    { unixNano := 0 } { unixNano := 9 } respNone rfl

/-- C3 counterexample: the claim says the updated remote event carries
the Appointment's values for all six mapped fields, attendee included.
But for an appointment whose attendee email is empty, the patched event
sent to the remote update keeps the fetched event's old attendee
instead of the appointment's (absent) attendee: an updater that accepts
only an empty attendee list rejects the payload. -/
theorem updateEvent_overwrites_attendee_cex :
    (updateEventPatch fmtEx apptNoAttendee eventWithOldAttendee).Attendees =
      [{ Email := "old@example.com", DisplayName := "" }] ∧
    ¬((updateEventPatch fmtEx apptNoAttendee eventWithOldAttendee).Attendees = []) ∧
    UpdateEvent fmtEx (fun _ _ => Except.ok eventWithOldAttendee)
      (fun _ _ ev => if ev.Attendees = [] then Except.ok ev
        else Except.error "old attendee kept")
      clientEx "evt-1" apptNoAttendee =
      Except.error ("failed to update calendar event: " ++ "old attendee kept") :=
  ⟨rfl, by decide, rfl⟩

/-- C3 as amended: `UpdateEvent` first fetches the existing remote event
and sends the remote update exactly that event with summary,
description, start, end and location overwritten by the Appointment's
values; the attendee list is overwritten only when the attendee email
is non-empty, the fetched attendees being kept otherwise; and every
field outside the Appointment type (identifier, status, color, …) is
carried over from the fetched event. -/
theorem updateEvent_patch_fields (fmt : GoTime → String) (appt : Appointment)
    (existingEvent : Event) (c : Client) (eventID : String) :
    (updateEventPatch fmt appt existingEvent).Summary = appt.Summary ∧
    (updateEventPatch fmt appt existingEvent).Description = appt.Description ∧
    (updateEventPatch fmt appt existingEvent).Start =
      some { DateTime := fmt appt.Start, TimeZone := appt.Timezone } ∧
    (updateEventPatch fmt appt existingEvent).End =
      some { DateTime := fmt appt.End, TimeZone := appt.Timezone } ∧
    (updateEventPatch fmt appt existingEvent).Location = appt.Location ∧
    (appt.AttendeeEmail ≠ "" →
      (updateEventPatch fmt appt existingEvent).Attendees =
        [{ Email := appt.AttendeeEmail, DisplayName := "" }]) ∧
    (appt.AttendeeEmail = "" →
      (updateEventPatch fmt appt existingEvent).Attendees =
        existingEvent.Attendees) ∧
    (updateEventPatch fmt appt existingEvent).Id = existingEvent.Id ∧
    (updateEventPatch fmt appt existingEvent).Status = existingEvent.Status ∧
    (updateEventPatch fmt appt existingEvent).ColorId = existingEvent.ColorId ∧
    UpdateEvent fmt (fun _ _ => Except.ok existingEvent)
      (fun _ _ ev => if ev = updateEventPatch fmt appt existingEvent then Except.ok ev
        else Except.error "unexpected payload")
      c eventID appt = Except.ok () := by
  by_cases h : appt.AttendeeEmail = "" <;>
    simp [updateEventPatch, UpdateEvent, h]

/-- Witness for C3 (amended): with a non-empty attendee email the patch
carries exactly that email; with an empty one it keeps the fetched
attendees. -/
theorem updateEvent_patch_fields_witness :
    (updateEventPatch fmtEx apptWithAttendee eventWithOldAttendee).Summary =
      apptWithAttendee.Summary ∧
    (updateEventPatch fmtEx apptWithAttendee eventWithOldAttendee).Attendees =
      [{ Email := apptWithAttendee.AttendeeEmail, DisplayName := "" }] ∧
    (updateEventPatch fmtEx apptNoAttendee eventWithOldAttendee).Attendees =
      eventWithOldAttendee.Attendees :=
  ⟨(updateEvent_patch_fields fmtEx apptWithAttendee eventWithOldAttendee
      clientEx "evt-1").1,
    (updateEvent_patch_fields fmtEx apptWithAttendee eventWithOldAttendee
      clientEx "evt-1").2.2.2.2.2.1 (by decide),
    (updateEvent_patch_fields fmtEx apptNoAttendee eventWithOldAttendee
      clientEx "evt-1").2.2.2.2.2.2.1 rfl⟩

/-- Witness for C10: production with the calendar identifier unset fails
validation yet yields the fully resolved configuration. -/
theorem load_returns_resolved_config_on_error_witness :
    (Load envProdMissing).2 ≠ none ∧
      (Load envProdMissing).1 =
        { Env := "production", HttpPort := "8080", Timezone := "UTC",
          GCalCalendarID := "", GoogleCredsJSON := "", SupabaseURL := "",
          SupabaseKey := "", RedisURL := "redis://localhost:6379" } := by
  refine ⟨by decide, ?_⟩
  have h2 := load_returns_resolved_config_on_error envProdMissing (by decide)
  rw [h2]
  rfl

end SchedulingBot
